import Mathlib

/-
Verification of `cloud/vmware/vmware_host_nfs.py` (repository
yfauser/ansible-modules-extras).

The module is a single-shot state reconciler: it reads the desired state
(`present`/`absent`) of an NFS datastore on an ESXi host, queries the
actual state through the pyVmomi remote API, and dispatches one of four
actions via a nested dictionary.  The embedding below translates the
module's functions one-for-one:

  * `mount_nfsvolume`, `unmount_nfsvolume`, `state_mount_datastore`,
    `state_unmount_datastore`, `state_exit_unchanged`,
    `check_datastore_status` and the `main` dispatch correspond to the
    Python functions of the same names;
  * the external pyVmomi API (connection, host lookup, datastore
    enumeration, CreateNasDatastore, RemoveDatastore) is modelled as an
    environment `Env` whose calls either return a value or raise one of
    the exceptions the Python code catches (`vmodl.RuntimeFault`,
    `vmodl.MethodFault`, generic `Exception`);
  * mutating remote calls are recorded in a trace (`List MutCall`) so
    that frame/effect claims can be stated;
  * `module.exit_json` / `module.fail_json` outcomes are reified in
    `Outcome`.  In `Outcome.exit_json changed result`, `result = none`
    means the Python call passed no `result` keyword at all (the code
    never passes `result=None`: it always stringifies first).
-/

namespace VmwareHostNfs

/-- A datastore object as seen by the module: the only attribute the code
reads is `name`; the object itself is otherwise an opaque handle. -/
structure Datastore where
  name : String
deriving DecidableEq

/-- An opaque Python value, retaining only what `str()` yields on it,
which is all the module ever does with API results. -/
inductive PyVal where
  | pynone
  | obj (s : String)
deriving DecidableEq

/-- Python `str()` applied to an API result (`str(None) = "None"`). -/
def pystr : PyVal → String
  | .pynone => "None"
  | .obj s => s

/-- The exceptions `main` catches: `vmodl.RuntimeFault`,
`vmodl.MethodFault`, and any other `Exception`.  Each carries the string
the handler surfaces (`fault.msg` for the two faults, `str(e)` for the
generic case). -/
inductive Exc where
  | runtimeFault (m : String)
  | methodFault (m : String)
  | generic (m : String)
deriving DecidableEq

/-- The message `main`'s handlers put into `fail_json(msg=...)`. -/
def Exc.msg : Exc → String
  | .runtimeFault m => m
  | .methodFault m => m
  | .generic m => m

/-- `vim.host.NasVolume.Specification` with the four fields
`mount_nfsvolume` sets. -/
structure NasVolumeSpecification where
  remoteHost : String
  remotePath : String
  localPath : String
  accessMode : String
deriving DecidableEq

/-- A mutating remote call issued through the datastore system. -/
inductive MutCall where
  | createNasDatastore (spec : NasVolumeSpecification)
  | removeDatastore (ds : Datastore)
deriving DecidableEq

/-- The external pyVmomi API, as the module uses it.  `find_hostsystem`
bundles host resolution and the read of
`host_mo.configManager.datastoreSystem.datastore`: on success it yields
the host's mounted-datastore collection; any of those remote steps may
instead raise.  The two mutating calls may return a result or raise. -/
structure Env where
  connect_to_api : Except Exc Unit
  find_hostsystem : Except Exc (List Datastore)
  createNasDatastoreResult : NasVolumeSpecification → Except Exc PyVal
  removeDatastoreResult : Datastore → Except Exc PyVal

/-- Module parameters after `AnsibleModule` validation (the fields the
reconciliation code reads). -/
structure Params where
  esxi_hostname : String
  datastore_name : String
  nfs_server : String
  nfs_path : String
  nfs_readonly : Bool
  state : String
deriving DecidableEq

/-- The observable end of an invocation: `module.exit_json` (with or
without a `result` keyword) or `module.fail_json(msg=...)`. -/
inductive Outcome where
  | exit_json (changed : Bool) (result : Option String)
  | fail_json (msg : String)
deriving DecidableEq

/-- `mount_nfsvolume(host_mo, nfs_server, nfs_path, local_path,
nfs_readonly)`: builds the NAS volume spec field by field and calls
`CreateNasDatastore(nfs_ds_spec)`, returning `(True, result)`.  The
issued mutating call is recorded in the trace whether or not the remote
call raises. -/
def mount_nfsvolume (env : Env) (nfs_server nfs_path local_path : String)
    (nfs_readonly : Bool) : Except Exc (Bool × PyVal) × List MutCall :=
  let nfs_ds_spec : NasVolumeSpecification :=
    { remoteHost := nfs_server
      remotePath := nfs_path
      localPath := local_path
      accessMode := if nfs_readonly then "readOnly" else "readWrite" }
  match env.createNasDatastoreResult nfs_ds_spec with
  | .ok result => (.ok (true, result), [.createNasDatastore nfs_ds_spec])
  | .error e => (.error e, [.createNasDatastore nfs_ds_spec])

/-- `unmount_nfsvolume(host_mo, datastore_mo)`: calls
`RemoveDatastore(datastore_mo)` and returns `(True, result)`. -/
def unmount_nfsvolume (env : Env) (datastore_mo : Datastore) :
    Except Exc (Bool × PyVal) × List MutCall :=
  match env.removeDatastoreResult datastore_mo with
  | .ok result => (.ok (true, result), [.removeDatastore datastore_mo])
  | .error e => (.error e, [.removeDatastore datastore_mo])

/-- `state_mount_datastore(module)`: `changed = True`, `result = None`;
unless check mode is set, calls `mount_nfsvolume` with
`local_path = datastore_name`; then `exit_json(changed=changed,
result=str(result))`.  An exception from the mount call propagates. -/
def state_mount_datastore (env : Env) (p : Params) (check_mode : Bool) :
    Except Exc Outcome × List MutCall :=
  if check_mode then
    (.ok (.exit_json true (some (pystr .pynone))), [])
  else
    match mount_nfsvolume env p.nfs_server p.nfs_path p.datastore_name p.nfs_readonly with
    | (.ok (changed, result), calls) =>
      (.ok (.exit_json changed (some (pystr result))), calls)
    | (.error e, calls) => (.error e, calls)

/-- `state_unmount_datastore(module)`: `changed = True`, `result = None`;
unless check mode is set, calls `unmount_nfsvolume` on the previously
resolved `datastore_mo`; then `exit_json(changed=changed,
result=str(result))`. -/
def state_unmount_datastore (env : Env) (datastore_mo : Datastore) (check_mode : Bool) :
    Except Exc Outcome × List MutCall :=
  if check_mode then
    (.ok (.exit_json true (some (pystr .pynone))), [])
  else
    match unmount_nfsvolume env datastore_mo with
    | (.ok (changed, result), calls) =>
      (.ok (.exit_json changed (some (pystr result))), calls)
    | (.error e, calls) => (.error e, calls)

/-- `state_exit_unchanged(module)`: `exit_json(changed=False)` with no
`result` keyword. -/
def state_exit_unchanged : Outcome :=
  .exit_json false none

/-- The loop body of `check_datastore_status`: iterate over
`host_datastores`, but both branches of the first iteration `return`, so
only the head is ever examined; on an empty collection the function
falls off the end and returns Python `None` (modelled as `none`).  The
second component is `module.params[datastore_mo]`, set only when the
first entry matches. -/
def check_datastore_status (datastore_name : String) :
    List Datastore → Option String × Option Datastore
  | [] => (none, none)
  | host_datastore :: _ =>
    if host_datastore.name = datastore_name then
      (some "present", some host_datastore)
    else
      (some "absent", none)

/-- An entry of the nested `datastore_states` dictionary in `main`. -/
inductive Action where
  | unmount
  | exit_unchanged
  | mount
deriving DecidableEq

/-- Python `str(KeyError(k))`: `repr` of the missing key, so `None` for
the key `None` and a quoted string for a string key. -/
def pyKeyErrorMsg : Option String → String
  | none => "None"
  | some k => "\x27" ++ k ++ "\x27"

/-- The nested dictionary lookup
`datastore_states[state][check_datastore_status(module)]` from `main`:
absent/present selects unmount, absent/absent and present/present select
exit-unchanged, present/absent selects mount; any other key (notably the
inner key `None` from an empty datastore collection) raises `KeyError`,
which `main`'s generic handler converts to `fail_json(msg=str(e))`. -/
def datastore_states (state : String) (status : Option String) : Except Exc Action :=
  if state = "absent" then
    if status = some "present" then .ok .unmount
    else if status = some "absent" then .ok .exit_unchanged
    else .error (.generic (pyKeyErrorMsg status))
  else if state = "present" then
    if status = some "present" then .ok .exit_unchanged
    else if status = some "absent" then .ok .mount
    else .error (.generic (pyKeyErrorMsg status))
  else .error (.generic (pyKeyErrorMsg (some state)))

/-- The tail of `main`'s `try` block, once `check_datastore_status` has
the host's datastore collection in hand: look up the dispatch table on
(state, status), run the selected state function with the module's
check-mode flag, and convert any exception it raises into `fail_json`
with that exception's message. -/
def main_dispatch (env : Env) (p : Params) (check_mode : Bool)
    (host_datastores : List Datastore) : Outcome × List MutCall :=
  let cds := check_datastore_status p.datastore_name host_datastores
  match datastore_states p.state cds.1 with
  | .error e => (.fail_json e.msg, [])
  | .ok .exit_unchanged => (state_exit_unchanged, [])
  | .ok .mount =>
    match state_mount_datastore env p check_mode with
    | (.ok out, calls) => (out, calls)
    | (.error e, calls) => (.fail_json e.msg, calls)
  | .ok .unmount =>
    match cds.2 with
    | none => (.fail_json (pyKeyErrorMsg (some "datastore_mo")), [])
    | some datastore_mo =>
      match state_unmount_datastore env datastore_mo check_mode with
      | (.ok out, calls) => (out, calls)
      | (.error e, calls) => (.fail_json e.msg, calls)

/-- The `try` block of `main` and its exception handlers:
`check_datastore_status` first connects and resolves the host (either
remote step may raise) and reads the datastore collection, then
`main_dispatch` runs the table-selected action; every caught exception
becomes `fail_json` with that exception's message.  The second component
is the trace of mutating remote calls issued. -/
def main_run (env : Env) (p : Params) (check_mode : Bool) : Outcome × List MutCall :=
  match env.connect_to_api with
  | .error e => (.fail_json e.msg, [])
  | .ok _ =>
    match env.find_hostsystem with
    | .error e => (.fail_json e.msg, [])
    | .ok host_datastores => main_dispatch env p check_mode host_datastores

/-- One entry of the `argument_spec` dictionary built in `main`
(restricted to the attributes the `state` entry uses). -/
structure ArgEntry where
  required : Bool
  default : Option String
  choices : List String
deriving DecidableEq

/-- The `state` entry of `argument_spec` as written in `main`:
`state=dict(default=present, choices=[present, absent], type=str)` — a
default is given and `required` is omitted (hence false). -/
def state_arg : ArgEntry :=
  { required := false
    default := some "present"
    choices := ["present", "absent"] }

/-- What the module's own `DOCUMENTATION` block says about `state`:
`required: True`. -/
def documentation_state_required : Bool := true

/-- Modelled from the spec: the parameter validation performed by
`AnsibleModule` (from `ansible.module_utils.basic`, which is not part of
this repository).  Per the spec's failure-exit clause — "failure exit
... when required inputs are missing/malformed (type/choice
validation)" — a supplied value must be among the declared choices; an
omitted parameter takes the declared default when there is one, and is a
validation failure only when the entry is `required` and has no
default. -/
def validate_param (spec : ArgEntry) (given : Option String) :
    Except String (Option String) :=
  match given with
  | some v =>
    if spec.choices = [] ∨ v ∈ spec.choices then .ok (some v)
    else .error "value not in choices"
  | none =>
    match spec.default with
    | some d => .ok (some d)
    | none =>
      if spec.required then .error "missing required arguments"
      else .ok none

/-- The NAS volume specification `state_mount_datastore` causes
`mount_nfsvolume` to build from the module parameters. -/
def nas_spec_of (p : Params) : NasVolumeSpecification :=
  { remoteHost := p.nfs_server
    remotePath := p.nfs_path
    localPath := p.datastore_name
    accessMode := if p.nfs_readonly then "readOnly" else "readWrite" }

/-- Whether an outcome carries a `result` field (necessarily a string,
since the code always passes `str(...)` when it passes one). -/
def exit_has_result_field : Outcome → Bool
  | .exit_json _ (some _) => true
  | _ => false

/-- A healthy environment whose host already has the target datastore
`ds1` mounted (and nothing else). -/
def env_present : Env :=
  { connect_to_api := .ok ()
    find_hostsystem := .ok [{ name := "ds1" }]
    createNasDatastoreResult := fun _ => .ok (.obj "vim.Datastore:ds1")
    removeDatastoreResult := fun _ => .ok .pynone }

/-- A healthy environment whose host has a single datastore `ds2`, so
the target `ds1` is reported absent. -/
def env_absent : Env :=
  { connect_to_api := .ok ()
    find_hostsystem := .ok [{ name := "ds2" }]
    createNasDatastoreResult := fun _ => .ok (.obj "vim.Datastore:ds1")
    removeDatastoreResult := fun _ => .ok .pynone }

/-- A healthy environment whose host has an empty datastore collection. -/
def env_empty : Env :=
  { connect_to_api := .ok ()
    find_hostsystem := .ok []
    createNasDatastoreResult := fun _ => .ok (.obj "vim.Datastore:ds1")
    removeDatastoreResult := fun _ => .ok .pynone }

/-- An environment whose connection step raises a runtime fault. -/
def env_connect_fault : Env :=
  { connect_to_api := .error (.runtimeFault "connection refused")
    find_hostsystem := .ok []
    createNasDatastoreResult := fun _ => .ok (.obj "vim.Datastore:ds1")
    removeDatastoreResult := fun _ => .ok .pynone }

/-- Standard parameters: mount `ds1` from `nfs:/export`, read-write. -/
def p_std : Params :=
  { esxi_hostname := "esx1"
    datastore_name := "ds1"
    nfs_server := "nfs"
    nfs_path := "/export"
    nfs_readonly := false
    state := "present" }

/-- `p_std` with desired state absent. -/
def p_absent : Params :=
  { p_std with state := "absent" }

theorem dispatch_unmount_status (state : String) (status : Option String)
    (h : datastore_states state status = .ok .unmount) : status = some "present" := by
  unfold datastore_states at h
  split_ifs at h <;> simp_all

theorem dispatch_mount_status (state : String) (status : Option String)
    (h : datastore_states state status = .ok .mount) : status = some "absent" := by
  unfold datastore_states at h
  split_ifs at h <;> simp_all

theorem check_present_datastore_mo (n : String) (l : List Datastore)
    (h : (check_datastore_status n l).1 = some "present") :
    ∃ d, (check_datastore_status n l).2 = some d := by
  cases l with
  | nil => simp [check_datastore_status] at h
  | cons d rest =>
    by_cases hd : d.name = n
    · exact ⟨d, by simp [check_datastore_status, hd]⟩
    · simp [check_datastore_status, hd] at h

theorem state_mount_datastore_cases (env : Env) (p : Params) (cm : Bool) :
    (cm = true ∧
      state_mount_datastore env p cm = (.ok (.exit_json true (some "None")), [])) ∨
    (cm = false ∧ ∃ r, env.createNasDatastoreResult (nas_spec_of p) = .ok r ∧
      state_mount_datastore env p cm =
        (.ok (.exit_json true (some (pystr r))), [.createNasDatastore (nas_spec_of p)])) ∨
    (cm = false ∧ ∃ e, env.createNasDatastoreResult (nas_spec_of p) = .error e ∧
      state_mount_datastore env p cm = (.error e, [.createNasDatastore (nas_spec_of p)])) := by
  cases cm with
  | true => exact Or.inl ⟨rfl, rfl⟩
  | false =>
    cases hres : env.createNasDatastoreResult (nas_spec_of p) with
    | ok r =>
      refine Or.inr (Or.inl ⟨rfl, r, rfl, ?_⟩)
      simp only [nas_spec_of] at hres
      simp only [state_mount_datastore, mount_nfsvolume, nas_spec_of, Bool.false_eq_true,
        if_false, hres]
    | error e =>
      refine Or.inr (Or.inr ⟨rfl, e, rfl, ?_⟩)
      simp only [nas_spec_of] at hres
      simp only [state_mount_datastore, mount_nfsvolume, nas_spec_of, Bool.false_eq_true,
        if_false, hres]

theorem state_unmount_datastore_cases (env : Env) (d : Datastore) (cm : Bool) :
    (cm = true ∧
      state_unmount_datastore env d cm = (.ok (.exit_json true (some "None")), [])) ∨
    (cm = false ∧ ∃ r, env.removeDatastoreResult d = .ok r ∧
      state_unmount_datastore env d cm =
        (.ok (.exit_json true (some (pystr r))), [.removeDatastore d])) ∨
    (cm = false ∧ ∃ e, env.removeDatastoreResult d = .error e ∧
      state_unmount_datastore env d cm = (.error e, [.removeDatastore d])) := by
  cases cm with
  | true => exact Or.inl ⟨rfl, rfl⟩
  | false =>
    cases hres : env.removeDatastoreResult d with
    | ok r =>
      refine Or.inr (Or.inl ⟨rfl, r, rfl, ?_⟩)
      simp only [state_unmount_datastore, unmount_nfsvolume, if_neg, Bool.false_eq_true,
        not_false_iff, hres]
    | error e =>
      refine Or.inr (Or.inr ⟨rfl, e, rfl, ?_⟩)
      simp only [state_unmount_datastore, unmount_nfsvolume, if_neg, Bool.false_eq_true,
        not_false_iff, hres]

theorem main_run_connect_error (env : Env) (p : Params) (cm : Bool) (e : Exc)
    (hc : env.connect_to_api = .error e) :
    main_run env p cm = (.fail_json e.msg, []) := by
  unfold main_run
  rw [hc]

theorem main_run_find_error (env : Env) (p : Params) (cm : Bool) (e : Exc)
    (hc : env.connect_to_api = .ok ()) (hf : env.find_hostsystem = .error e) :
    main_run env p cm = (.fail_json e.msg, []) := by
  unfold main_run
  rw [hc, hf]

theorem main_run_dispatch (env : Env) (p : Params) (cm : Bool) (l : List Datastore)
    (hc : env.connect_to_api = .ok ()) (hf : env.find_hostsystem = .ok l) :
    main_run env p cm = main_dispatch env p cm l := by
  unfold main_run
  rw [hc, hf]

theorem main_dispatch_trace_spec (env : Env) (p : Params) (cm : Bool) (l : List Datastore) :
    (main_dispatch env p cm l).2 = [] ∨
    ((main_dispatch env p cm l).2.length = 1 ∧
      (main_dispatch env p cm l).1 ≠ state_exit_unchanged ∧ cm = false) := by
  simp only [main_dispatch]
  cases hdisp : datastore_states p.state (check_datastore_status p.datastore_name l).1 with
  | error e => left; simp [hdisp]
  | ok a =>
    cases a with
    | exit_unchanged => left; simp [hdisp]
    | mount =>
      rcases state_mount_datastore_cases env p cm with ⟨hcm, hm⟩ | ⟨hcm, r, hres, hm⟩ | ⟨hcm, e, hres, hm⟩
      · left; simp [hdisp, hm]
      · right; subst hcm; simp [hdisp, hm, state_exit_unchanged]
      · right; subst hcm; simp [hdisp, hm, state_exit_unchanged]
    | unmount =>
      cases hmo : (check_datastore_status p.datastore_name l).2 with
      | none => left; simp [hdisp, hmo]
      | some d =>
        rcases state_unmount_datastore_cases env d cm with ⟨hcm, hm⟩ | ⟨hcm, r, hres, hm⟩ | ⟨hcm, e, hres, hm⟩
        · left; simp [hdisp, hmo, hm]
        · right; subst hcm; simp [hdisp, hmo, hm, state_exit_unchanged]
        · right; subst hcm; simp [hdisp, hmo, hm, state_exit_unchanged]

theorem main_run_trace_spec (env : Env) (p : Params) (cm : Bool) :
    (main_run env p cm).2 = [] ∨
    ((main_run env p cm).2.length = 1 ∧
      (main_run env p cm).1 ≠ state_exit_unchanged ∧ cm = false) := by
  cases hc : env.connect_to_api with
  | error e => left; rw [main_run_connect_error env p cm e hc]
  | ok u =>
    cases hf : env.find_hostsystem with
    | error e =>
      left
      cases u
      rw [main_run_find_error env p cm e hc hf]
    | ok l =>
      cases u
      rw [main_run_dispatch env p cm l hc hf]
      exact main_dispatch_trace_spec env p cm l

/-- C1: over the four (desired, actual) pairs drawn from present/absent,
the dispatch table selects exactly one action each: absent/present
selects unmount, absent/absent selects the no-op, present/present
selects the no-op, and present/absent selects mount. -/
theorem C1_dispatch_table :
    datastore_states "absent" (some "present") = .ok .unmount ∧
    datastore_states "absent" (some "absent") = .ok .exit_unchanged ∧
    datastore_states "present" (some "present") = .ok .exit_unchanged ∧
    datastore_states "present" (some "absent") = .ok .mount :=
  ⟨rfl, rfl, rfl, rfl⟩

/-- C2: the presence check inspects only the first entry of a non-empty
datastore collection: it reports present when the head's name equals the
target datastore name and absent otherwise, whatever the remaining
entries are (in particular even when a later entry matches). -/
theorem C2_first_entry_short_circuit (datastore_name : String) (d : Datastore)
    (rest : List Datastore) :
    (check_datastore_status datastore_name (d :: rest)).1 =
      some (if d.name = datastore_name then "present" else "absent") := by
  by_cases h : d.name = datastore_name <;> simp [check_datastore_status, h]

/-- C3: refuted on the code — with desired state present and an empty
datastore collection the computed status is Python None, not a member of
the present/absent pair; the dispatch lookup then raises KeyError, so the
invocation fails with the stringified KeyError instead of invoking the
mount entry, and no mutating call is issued. -/
theorem C3_empty_collection_key_error :
    (check_datastore_status p_std.datastore_name []).1 = none ∧
    main_run env_empty p_std false = (.fail_json "None", []) :=
  ⟨rfl, rfl⟩

/-- C4: when check mode is set and the dispatched action is mount or
unmount, the invocation exits with changed = true (the result field being
the stringified None) and issues no mutating remote call. -/
theorem C4_check_mode_reports_changed_without_mutation (env : Env) (p : Params)
    (l : List Datastore)
    (hc : env.connect_to_api = .ok ())
    (hf : env.find_hostsystem = .ok l)
    (ha : datastore_states p.state (check_datastore_status p.datastore_name l).1 = .ok .mount ∨
      datastore_states p.state (check_datastore_status p.datastore_name l).1 = .ok .unmount) :
    main_run env p true = (.exit_json true (some "None"), []) := by
  rw [main_run_dispatch env p true l hc hf]
  simp only [main_dispatch]
  rcases ha with ha | ha
  · simp [ha, state_mount_datastore, pystr]
  · have hst := dispatch_unmount_status _ _ ha
    obtain ⟨d, hd⟩ := check_present_datastore_mo _ _ hst
    simp [ha, hd, state_unmount_datastore, pystr]

/-- C4 witness: check-mode invocation at a concrete mount dispatch. -/
theorem C4_check_mode_witness :
    main_run env_absent p_std true = (.exit_json true (some "None"), []) :=
  C4_check_mode_reports_changed_without_mutation env_absent p_std
    [{ name := "ds2" }] rfl rfl (Or.inl rfl)

/-- C5: the mount action builds the NAS volume specification with
remoteHost = nfs_server, remotePath = nfs_path, localPath =
datastore_name and accessMode readOnly exactly when nfs_readonly is true
(readWrite when it is false), and passes exactly that specification to
the CreateNasDatastore call. -/
theorem C5_mount_spec_construction (env : Env) (p : Params) :
    (state_mount_datastore env p false).2 = [.createNasDatastore (nas_spec_of p)] ∧
    (nas_spec_of p).remoteHost = p.nfs_server ∧
    (nas_spec_of p).remotePath = p.nfs_path ∧
    (nas_spec_of p).localPath = p.datastore_name ∧
    ((nas_spec_of p).accessMode = if p.nfs_readonly then "readOnly" else "readWrite") := by
  refine ⟨?_, rfl, rfl, rfl, rfl⟩
  rcases state_mount_datastore_cases env p false with ⟨hcm, _⟩ | ⟨_, r, _, hm⟩ | ⟨_, e, _, hm⟩
  · exact Bool.noConfusion hcm
  · rw [hm]
  · rw [hm]

/-- C6: when the desired state equals the computed actual state (both
present or both absent), the invocation exits with changed = false, no
result field, and no mutating remote call, in every mode. -/
theorem C6_equal_states_unchanged (env : Env) (p : Params) (l : List Datastore) (cm : Bool)
    (hstate : p.state = "present" ∨ p.state = "absent")
    (hc : env.connect_to_api = .ok ())
    (hf : env.find_hostsystem = .ok l)
    (hs : (check_datastore_status p.datastore_name l).1 = some p.state) :
    main_run env p cm = (.exit_json false none, []) := by
  have hd : datastore_states p.state (check_datastore_status p.datastore_name l).1 =
      .ok .exit_unchanged := by
    rcases hstate with h | h <;> rw [hs, h] <;> rfl
  rw [main_run_dispatch env p cm l hc hf]
  simp [main_dispatch, hd, state_exit_unchanged]

/-- C6 witness: desired present while ds1 is already mounted. -/
theorem C6_equal_states_witness :
    main_run env_present p_std false = (.exit_json false none, []) :=
  C6_equal_states_unchanged env_present p_std [{ name := "ds1" }] false
    (Or.inl rfl) rfl rfl rfl

/-- C7: a remote error (runtime fault, method fault, or any other
exception) raised at connection, host resolution, the mount call, or the
unmount call makes the whole invocation fail with that error's message
verbatim in the msg field, and the operation is not retried: the trace
holds at most the single attempted call. -/
theorem C7_fault_fails_with_verbatim_msg (env : Env) (p : Params) (cm : Bool) (e : Exc)
    (h : env.connect_to_api = .error e ∨
      (env.connect_to_api = .ok () ∧ env.find_hostsystem = .error e) ∨
      (env.connect_to_api = .ok () ∧ cm = false ∧ ∃ l,
        env.find_hostsystem = .ok l ∧
        datastore_states p.state (check_datastore_status p.datastore_name l).1 = .ok .mount ∧
        env.createNasDatastoreResult (nas_spec_of p) = .error e) ∨
      (env.connect_to_api = .ok () ∧ cm = false ∧ ∃ l d,
        env.find_hostsystem = .ok l ∧
        datastore_states p.state (check_datastore_status p.datastore_name l).1 = .ok .unmount ∧
        (check_datastore_status p.datastore_name l).2 = some d ∧
        env.removeDatastoreResult d = .error e)) :
    (main_run env p cm).1 = .fail_json e.msg ∧ (main_run env p cm).2.length ≤ 1 := by
  rcases h with hce | ⟨hc, hfe⟩ | ⟨hc, hcm, l, hf, ha, hres⟩ | ⟨hc, hcm, l, d, hf, ha, hmo, hres⟩
  · rw [main_run_connect_error env p cm e hce]
    exact ⟨rfl, by simp⟩
  · rw [main_run_find_error env p cm e hc hfe]
    exact ⟨rfl, by simp⟩
  · subst hcm
    rw [main_run_dispatch env p false l hc hf]
    rcases state_mount_datastore_cases env p false with ⟨hcm2, _⟩ | ⟨_, r, hr, _⟩ | ⟨_, e2, hr, hm⟩
    · exact Bool.noConfusion hcm2
    · rw [hres] at hr
      exact Except.noConfusion hr
    · rw [hres] at hr
      injection hr with hr
      subst hr
      constructor <;> simp [main_dispatch, ha, hm]
  · subst hcm
    rw [main_run_dispatch env p false l hc hf]
    rcases state_unmount_datastore_cases env d false with ⟨hcm2, _⟩ | ⟨_, r, hr, _⟩ | ⟨_, e2, hr, hm⟩
    · exact Bool.noConfusion hcm2
    · rw [hres] at hr
      exact Except.noConfusion hr
    · rw [hres] at hr
      injection hr with hr
      subst hr
      constructor <;> simp [main_dispatch, ha, hmo, hm]

/-- C7 witness: the connection step raises a runtime fault whose message
is surfaced verbatim. -/
theorem C7_fault_witness :
    (main_run env_connect_fault p_std false).1 = .fail_json "connection refused" ∧
    (main_run env_connect_fault p_std false).2.length ≤ 1 :=
  C7_fault_fails_with_verbatim_msg env_connect_fault p_std false
    (.runtimeFault "connection refused") (Or.inl rfl)

/-- C8: every invocation issues at most one mutating remote call; every
check-mode invocation issues none; an invocation that ends in the no-op
exit issues none; a non-check-mode mount issues exactly the one
CreateNasDatastore call and a non-check-mode unmount exactly the one
RemoveDatastore call. -/
theorem C8_at_most_one_mutating_call (env : Env) (p : Params) (cm : Bool) (ds : Datastore) :
    (main_run env p cm).2.length ≤ 1 ∧
    (main_run env p true).2 = [] ∧
    ((main_run env p cm).1 = state_exit_unchanged → (main_run env p cm).2 = []) ∧
    (state_mount_datastore env p false).2 = [.createNasDatastore (nas_spec_of p)] ∧
    (state_unmount_datastore env ds false).2 = [.removeDatastore ds] := by
  refine ⟨?_, ?_, ?_, ?_, ?_⟩
  · rcases main_run_trace_spec env p cm with h | ⟨h, _, _⟩
    · simp [h]
    · simp [h]
  · rcases main_run_trace_spec env p true with h | ⟨_, _, hcm⟩
    · exact h
    · exact Bool.noConfusion hcm
  · intro hout
    rcases main_run_trace_spec env p cm with h | ⟨_, hne, _⟩
    · exact h
    · exact absurd hout hne
  · rcases state_mount_datastore_cases env p false with ⟨hcm, _⟩ | ⟨_, r, _, hm⟩ | ⟨_, e, _, hm⟩
    · exact Bool.noConfusion hcm
    · rw [hm]
    · rw [hm]
  · rcases state_unmount_datastore_cases env ds false with ⟨hcm, _⟩ | ⟨_, r, _, hm⟩ | ⟨_, e, _, hm⟩
    · exact Bool.noConfusion hcm
    · rw [hm]
    · rw [hm]

/-- C8 witness: a no-op invocation issues zero mutating calls. -/
theorem C8_noop_witness :
    (main_run env_present p_std false).2 = [] :=
  (C8_at_most_one_mutating_call env_present p_std false { name := "ds1" }).2.2.1 rfl

/-- C9: refuted on the code — the argument spec declares state with
default present and without required, so an invocation omitting state
passes validation and proceeds with desired state present, even though
the module's own DOCUMENTATION marks state as required. -/
theorem C9_omitted_state_defaults_to_present :
    validate_param state_arg none = .ok (some "present") ∧
    state_arg.required = false ∧
    documentation_state_required = true :=
  ⟨rfl, rfl, rfl⟩

/-- C10 counterexample: the no-op success path (desired present, ds1
already mounted) exits with changed = false and no result field at all,
so not every successful invocation carries a detail/result field. -/
theorem C10_counterexample_noop_has_no_result_field :
    (main_run env_present p_std false).1 = .exit_json false none ∧
    exit_has_result_field (main_run env_present p_std false).1 = false :=
  ⟨rfl, rfl⟩

/-- C10 (amended): every successful invocation reports a boolean changed
field; the mount and unmount success paths additionally report a result
field that is a string, while the no-op success path reports only
changed = false and carries no result field. -/
theorem C10_result_field_by_path (env : Env) (p : Params) (cm : Bool) (ds : Datastore) :
    (∀ out calls, state_mount_datastore env p cm = (.ok out, calls) →
      exit_has_result_field out = true) ∧
    (∀ out calls, state_unmount_datastore env ds cm = (.ok out, calls) →
      exit_has_result_field out = true) ∧
    state_exit_unchanged = .exit_json false none ∧
    exit_has_result_field state_exit_unchanged = false := by
  refine ⟨?_, ?_, rfl, rfl⟩
  · intro out calls h
    rcases state_mount_datastore_cases env p cm with ⟨_, hm⟩ | ⟨_, r, _, hm⟩ | ⟨_, e, _, hm⟩ <;>
      rw [hm] at h <;> injection h with h1 h2
    · injection h1 with h1
      subst h1
      rfl
    · injection h1 with h1
      subst h1
      rfl
    · exact Except.noConfusion h1
  · intro out calls h
    rcases state_unmount_datastore_cases env ds cm with ⟨_, hm⟩ | ⟨_, r, _, hm⟩ | ⟨_, e, _, hm⟩ <;>
      rw [hm] at h <;> injection h with h1 h2
    · injection h1 with h1
      subst h1
      rfl
    · injection h1 with h1
      subst h1
      rfl
    · exact Except.noConfusion h1

/-- C10 witness: a check-mode mount exit carries a string result field. -/
theorem C10_result_field_witness :
    exit_has_result_field (.exit_json true (some "None")) = true :=
  (C10_result_field_by_path env_present p_std true { name := "ds1" }).1
    (.exit_json true (some "None")) [] rfl

end VmwareHostNfs
